import Mathlib

/-!
Shallow embedding of `src/health-exporter/health_exporter.py` (kessel-in-box).

The program is a Prometheus health-check exporter with four parts:
the static service registry `SERVICES` (a Python dict literal), the
prober `check_service_health`, the formatter `generate_metrics`, and
the HTTP handler `HealthExporterHandler.do_GET`.

Effects are made explicit: the log line emitted by a probe becomes part
of the return value, the outcome of the outbound HTTP call (which is
environment behaviour, not program behaviour) becomes an `Outcome`
argument, and `int(time.time())` becomes a `now : Nat` argument.
-/

/-- Configuration record for one service, mirroring the per-service dict
in the Python source. The source accesses `config['url']` and
`config['timeout']` directly (required keys) and `config.get('method', 'GET')`
and `config.get('body', '')` (optional keys), so `method` and `body` are
`Option String`. -/
structure ServiceConfig where
  url : String
  timeout : Nat
  method : Option String := none
  body : Option String := none
deriving DecidableEq, Repr

/-- Outcome of the single outbound HTTP call made by a probe, at the
granularity of the `except` clauses in `check_service_health` (lines 91-99):
a response was received (with its final status code, redirects already
followed by `requests`), `requests.exceptions.Timeout` was raised,
`requests.exceptions.ConnectionError` was raised, or any other `Exception`
was raised during request construction or execution. -/
inductive Outcome where
  | response (status : Nat)
  | timeout
  | connectionError
  | otherError (msg : String)
deriving DecidableEq, Repr

/-- Logging level used by the probe: `logger.debug`, `logger.warning`
or `logger.error`. -/
inductive LogLevel where
  | debug
  | warning
  | error
deriving DecidableEq, Repr

/-- Python `str.upper` restricted to the ASCII range, as applied to the
HTTP method strings appearing in configurations. -/
def pyUpper (s : String) : String :=
  String.mk (s.data.map Char.toUpper)

/-- Python `sep.join(l)` (used by `generate_metrics` as `"\n".join(metrics)`). -/
def pyJoin (sep : String) : List String → String
  | [] => ""
  | [x] => x
  | x :: y :: xs => x ++ sep ++ pyJoin sep (y :: xs)

/-- Outbound HTTP request as assembled by `check_service_health`
(lines 67-81): method, url, optional payload, headers, timeout and
redirect policy handed to `requests.post` / `requests.get`. -/
structure HttpRequest where
  method : String
  url : String
  body : Option String
  headers : List (String × String)
  timeout : Nat
  allowRedirects : Bool
deriving DecidableEq, Repr

/-- Request construction part of `check_service_health` (lines 67-81):
`method = config.get('method', 'GET').upper()`; if the result is `'POST'`,
call `requests.post(url, data=config.get('body', ''),
headers={Content-Type: application/json}, timeout=..., allow_redirects=True)`,
otherwise call `requests.get(url, timeout=..., allow_redirects=True)`
(no body, no headers). -/
def build_request (config : ServiceConfig) : HttpRequest :=
  let method := pyUpper (config.method.getD "GET")
  if method = "POST" then
    { method := "POST"
      url := config.url
      body := some (config.body.getD "")
      headers := [("Content-Type", "application/json")]
      timeout := config.timeout
      allowRedirects := true }
  else
    { method := "GET"
      url := config.url
      body := none
      headers := []
      timeout := config.timeout
      allowRedirects := true }

/-- Classification part of `check_service_health` (lines 83-99), with the
log line made an explicit result. Status codes in `[200, 400)` yield `1`
with a debug log; any other status yields `0` with a warning naming the
status; `Timeout` yields `0` with a `TIMEOUT` warning; `ConnectionError`
yields `0` with a `CONNECTION_ERROR` warning; any other exception yields
`0` with an error log carrying the failure detail. Every branch returns,
so in the embedding the function is total: no outcome propagates out. -/
def check_service_health (service_name : String) (config : ServiceConfig)
    (outcome : Outcome) : Nat × (LogLevel × String) :=
  match outcome with
  | .response status =>
    if 200 ≤ status ∧ status < 400 then
      (1, (.debug, service_name ++ ": UP (status " ++ toString status ++ ")"))
    else
      (0, (.warning, service_name ++ ": DOWN (status " ++ toString status ++ ")"))
  | .timeout => (0, (.warning, service_name ++ ": TIMEOUT"))
  | .connectionError => (0, (.warning, service_name ++ ": CONNECTION_ERROR"))
  | .otherError msg => (0, (.error, service_name ++ ": ERROR - " ++ msg))

/-- The `# HELP` header line appended first by `generate_metrics` (line 111). -/
def helpLine : String := "# HELP up Health check status (1 = up, 0 = down)"

/-- The `# TYPE` header line appended second by `generate_metrics` (line 112). -/
def typeLine : String := "# TYPE up gauge"

/-- One metric line, from the f-string on line 119:
`up{job="<service_name>"} <status>`, the service name inserted verbatim. -/
def metricLine (service_name : String) (status : Nat) : String :=
  "up\x7bjob=\"" ++ service_name ++ "\"\x7d " ++ toString status

/-- The trailing timestamp comment line (line 122), with `int(time.time())`
passed in as `now`. -/
def timestampLine (now : Nat) : String :=
  "# Health checks completed at " ++ toString now

/-- Formatter `generate_metrics` (lines 101-124), generalized over the
registry it sweeps (the source iterates the global `SERVICES.items()` in
insertion order) and over the probe outcomes: builds the `metrics` list in
order (HELP, TYPE, one `metricLine` per registry entry using the probe's
result, timestamp comment) and returns `"\n".join(metrics) + "\n"`. -/
def generate_metrics (registry : List (String × ServiceConfig))
    (outcomes : String → ServiceConfig → Outcome) (now : Nat) : String :=
  let metrics :=
    [helpLine, typeLine]
      ++ registry.map (fun p =>
          metricLine p.1 (check_service_health p.1 p.2 (outcomes p.1 p.2)).1)
      ++ [timestampLine now]
  pyJoin "\n" metrics ++ "\n"

/-- Python dict update `d[k] = v` on an insertion-ordered association
list: an existing key keeps its position and gets the new value; a new
key is appended at the end. This is how a dict literal with repeated keys
is evaluated (each key/value pair inserted left to right). -/
def dictInsert (d : List (String × ServiceConfig)) (k : String)
    (v : ServiceConfig) : List (String × ServiceConfig) :=
  match d with
  | [] => [(k, v)]
  | (k', v') :: rest =>
    if k' = k then (k, v) :: rest else (k', v') :: dictInsert rest k v

/-- Evaluation of a Python dict literal: start from the empty dict and
insert each written key/value pair left to right. It always succeeds;
there is no error path. -/
def mkDict (entries : List (String × ServiceConfig)) :
    List (String × ServiceConfig) :=
  entries.foldl (fun d p => dictInsert d p.1 p.2) []

/-- The static registry `SERVICES` (lines 38-57): a dict literal with four
entries, evaluated by left-to-right insertion. No validation of any kind
is performed at construction (`urlparse` is imported on line 22 but never
called). -/
def SERVICES : List (String × ServiceConfig) :=
  mkDict
    [ ("relations-api",
        { url := "http://kessel-relations-api:8000/api/authz/v1beta1/tuples"
          timeout := 5
          method := some "POST"
          body := some "\x7b\"tuples\":[]\x7d" })
    , ("inventory-api",
        { url := "http://kessel-inventory-api:8000/api/kessel/v1/livez"
          timeout := 5 })
    , ("rbac",
        { url := "http://insights-rbac:8080/api/rbac/v1/status/"
          timeout := 5 })
    , ("host-inventory",
        { url := "http://insights-host-inventory:8080/health"
          timeout := 5 }) ]

/-- Result of handling one inbound request: either a normal response sent
via `send_response`/`send_header`/`wfile.write`, or an error page sent via
`send_error` with a status code and message. -/
inductive HandlerResult where
  | ok (status : Nat) (contentType : String) (body : String)
  | error (status : Nat) (message : String)
deriving DecidableEq, Repr

/-- Status code of a handler result. -/
def HandlerResult.statusCode : HandlerResult → Nat
  | .ok s _ _ => s
  | .error s _ => s

/-- Handler `HealthExporterHandler.do_GET` (lines 129-154), returning the
response together with the list of services probed while handling the
request. `/metrics` runs a full sweep of `SERVICES` and returns the
formatted metrics with content type `text/plain; version=0.0.4`;
`/health` and `/healthz` return `200` with body `OK\n` and content type
`text/plain`, probing nothing; any other path gets
`send_error(404, "Not Found")`, probing nothing. -/
def do_GET (path : String) (outcomes : String → ServiceConfig → Outcome)
    (now : Nat) : HandlerResult × List String :=
  if path = "/metrics" then
    (.ok 200 "text/plain; version=0.0.4" (generate_metrics SERVICES outcomes now),
      SERVICES.map (fun p => p.1))
  else if path = "/health" ∨ path = "/healthz" then
    (.ok 200 "text/plain" "OK\n", [])
  else
    (.error 404 "Not Found", [])

/-- Dispatch of `http.server.BaseHTTPRequestHandler.handle_one_request`
for `HealthExporterHandler`: the class defines only `do_GET`, so a request
whose method is `GET` is handled by `do_GET`, and a request with any other
method is answered by the base class with
`send_error(501, "Unsupported method ('<method>')")` — no handler method
exists for it, and nothing is probed. -/
def handle_request (method path : String)
    (outcomes : String → ServiceConfig → Outcome) (now : Nat) :
    HandlerResult × List String :=
  if method = "GET" then
    do_GET path outcomes now
  else
    (.error 501 ("Unsupported method (\x27" ++ method ++ "\x27)"), [])

/-- Helper: every classification branch of the probe returns 0 or 1. -/
theorem check_result_zero_or_one (service_name : String) (config : ServiceConfig)
    (outcome : Outcome) :
    (check_service_health service_name config outcome).1 = 0 ∨
      (check_service_health service_name config outcome).1 = 1 := by
  cases outcome with
  | response status =>
    by_cases h : 200 ≤ status ∧ status < 400 <;>
      simp [check_service_health, h]
  | timeout => simp [check_service_health]
  | connectionError => simp [check_service_health]
  | otherError msg => simp [check_service_health]

/-- C1: for every service configuration and every probe outcome (any HTTP
status, timeout, connection failure, or any other exception during request
construction or execution), `check_service_health` returns a value — the
embedding is a total function, so no exception propagates — and that value
is exactly 0 or exactly 1. -/
theorem c1_check_total_zero_or_one (service_name : String)
    (config : ServiceConfig) (outcome : Outcome) :
    (check_service_health service_name config outcome).1 = 0 ∨
      (check_service_health service_name config outcome).1 = 1 :=
  check_result_zero_or_one service_name config outcome

/-- C2: a probe that receives an HTTP response returns 1 exactly when the
final status code (redirects already followed) lies in `[200, 400)` and 0
exactly otherwise; in particular 204 is up and 404 is down. -/
theorem c2_status_classification (service_name : String)
    (config : ServiceConfig) (status : Nat) :
    ((check_service_health service_name config (.response status)).1 = 1 ↔
      200 ≤ status ∧ status < 400) ∧
    ((check_service_health service_name config (.response status)).1 = 0 ↔
      ¬(200 ≤ status ∧ status < 400)) ∧
    (check_service_health service_name config (.response 204)).1 = 1 ∧
    (check_service_health service_name config (.response 404)).1 = 0 := by
  refine ⟨?_, ?_, ?_, ?_⟩
  · by_cases h : 200 ≤ status ∧ status < 400 <;>
      simp [check_service_health, h]
  · by_cases h : 200 ≤ status ∧ status < 400 <;>
      simp [check_service_health, h]
  · simp [check_service_health]
  · simp [check_service_health]

/-- Helper: a string starting with a fixed list of characters followed by
anything is never equal to a string whose first three characters differ;
specialized to the DOWN warning versus the TIMEOUT warning. -/
theorem down_msg_ne_timeout (sn t : String) :
    sn ++ ": DOWN (status " ++ t ++ ")" ≠ sn ++ ": TIMEOUT" := by
  intro h
  have hd := congrArg String.data h
  simp only [String.data_append, List.append_assoc] at hd
  have hc := List.append_cancel_left hd
  have h3 := congrArg (List.take 3) hc
  rw [List.take_append_of_le_length (by decide)] at h3
  exact absurd h3 (by decide)

/-- Helper: the DOWN warning message differs from the CONNECTION_ERROR
warning message whatever the status text is. -/
theorem down_msg_ne_conn (sn t : String) :
    sn ++ ": DOWN (status " ++ t ++ ")" ≠ sn ++ ": CONNECTION_ERROR" := by
  intro h
  have hd := congrArg String.data h
  simp only [String.data_append, List.append_assoc] at hd
  have hc := List.append_cancel_left hd
  have h3 := congrArg (List.take 3) hc
  rw [List.take_append_of_le_length (by decide)] at h3
  exact absurd h3 (by decide)

/-- Helper: the TIMEOUT warning message differs from the CONNECTION_ERROR
warning message for every service name. -/
theorem timeout_msg_ne_conn (sn : String) :
    sn ++ ": TIMEOUT" ≠ sn ++ ": CONNECTION_ERROR" := by
  intro h
  have hd := congrArg String.data h
  simp only [String.data_append] at hd
  have hc := List.append_cancel_left hd
  exact absurd hc (by decide)

/-- C8: a probe ending in a timeout returns 0 with a warning log reading
`<name>: TIMEOUT`; a probe ending in a transport failure returns 0 with a
warning log reading `<name>: CONNECTION_ERROR`; and these two log outputs
are distinct from each other, from both response-status branches, and
from the unexpected-failure branch (which logs at error level). -/
theorem c8_timeout_connection_branches (service_name : String)
    (config : ServiceConfig) (s : Nat) (msg : String) :
    check_service_health service_name config .timeout =
      (0, (.warning, service_name ++ ": TIMEOUT")) ∧
    check_service_health service_name config .connectionError =
      (0, (.warning, service_name ++ ": CONNECTION_ERROR")) ∧
    (check_service_health service_name config .timeout).2 ≠
      (check_service_health service_name config .connectionError).2 ∧
    (check_service_health service_name config .timeout).2 ≠
      (check_service_health service_name config (.response s)).2 ∧
    (check_service_health service_name config .timeout).2 ≠
      (check_service_health service_name config (.otherError msg)).2 ∧
    (check_service_health service_name config .connectionError).2 ≠
      (check_service_health service_name config (.response s)).2 ∧
    (check_service_health service_name config .connectionError).2 ≠
      (check_service_health service_name config (.otherError msg)).2 := by
  refine ⟨rfl, rfl, ?_, ?_, ?_, ?_, ?_⟩
  · simp only [check_service_health, Prod.mk.injEq, ne_eq]
    intro hcon
    exact timeout_msg_ne_conn service_name hcon.2
  · by_cases h : 200 ≤ s ∧ s < 400
    · simp [check_service_health, h]
    · simp only [check_service_health, if_neg h, Prod.mk.injEq, ne_eq]
      intro hcon
      exact down_msg_ne_timeout service_name (toString s) hcon.2.symm
  · simp [check_service_health]
  · by_cases h : 200 ≤ s ∧ s < 400
    · simp [check_service_health, h]
    · simp only [check_service_health, if_neg h, Prod.mk.injEq, ne_eq]
      intro hcon
      exact down_msg_ne_conn service_name (toString s) hcon.2.symm
  · simp [check_service_health]

/-- C9: a configuration whose method field is POST yields an outbound
request carrying the configured body (the empty string when absent), the
header `Content-Type: application/json`, the configured timeout as
deadline, and redirects followed; a configuration whose method field is
GET yields a request with no body and no headers, the same timeout and
redirect policy. -/
theorem c9_request_construction (config : ServiceConfig) :
    (config.method = some "POST" →
      build_request config =
        { method := "POST", url := config.url,
          body := some (config.body.getD ""),
          headers := [("Content-Type", "application/json")],
          timeout := config.timeout, allowRedirects := true }) ∧
    (config.method = some "GET" →
      build_request config =
        { method := "GET", url := config.url, body := none, headers := [],
          timeout := config.timeout, allowRedirects := true }) := by
  constructor
  · intro h
    have hp : pyUpper "POST" = "POST" := by decide
    simp [build_request, h, hp]
  · intro h
    have hp : pyUpper "GET" = "GET" := by decide
    simp [build_request, h, hp]

/-- Witness for C9 at two concrete configurations, one POST (the shape of
the relations-api entry) and one explicit GET. -/
theorem c9_request_construction_witness :
    build_request
        { url := "http://kessel-relations-api:8000/api/authz/v1beta1/tuples"
          timeout := 5
          method := some "POST"
          body := some "\x7b\"tuples\":[]\x7d" } =
      { method := "POST"
        url := "http://kessel-relations-api:8000/api/authz/v1beta1/tuples"
        body := some "\x7b\"tuples\":[]\x7d"
        headers := [("Content-Type", "application/json")]
        timeout := 5
        allowRedirects := true } ∧
    build_request
        { url := "http://example/livez"
          timeout := 5
          method := some "GET" } =
      { method := "GET"
        url := "http://example/livez"
        body := none
        headers := []
        timeout := 5
        allowRedirects := true } :=
  ⟨(c9_request_construction _).1 rfl, (c9_request_construction _).2 rfl⟩

/-- C10: the method field is read through ASCII upper-casing, so two
spellings with the same upper-casing build identical requests; an absent
method field builds the GET-shaped request; and any method whose
upper-casing is not `POST` — for example `PUT` — silently builds the
GET-shaped request rather than being rejected. -/
theorem c10_method_case_insensitive (config : ServiceConfig)
    (m₁ m₂ : String) :
    (pyUpper m₁ = pyUpper m₂ →
      build_request { config with method := some m₁ } =
        build_request { config with method := some m₂ }) ∧
    (config.method = none →
      build_request config =
        { method := "GET", url := config.url, body := none, headers := [],
          timeout := config.timeout, allowRedirects := true }) ∧
    (pyUpper (config.method.getD "GET") ≠ "POST" →
      build_request config =
        { method := "GET", url := config.url, body := none, headers := [],
          timeout := config.timeout, allowRedirects := true }) := by
  refine ⟨?_, ?_, ?_⟩
  · intro h
    simp [build_request, h]
  · intro h
    have hp : pyUpper "GET" = "GET" := by decide
    simp [build_request, h, hp]
  · intro h
    simp [build_request, if_neg h]

/-- Witness for C10: `post` builds the same request as `POST`; an absent
method and the unrecognized method `PUT` both build the GET-shaped
request. -/
theorem c10_method_case_insensitive_witness :
    build_request
        { url := "http://example/h"
          timeout := 5
          method := some "post" } =
      build_request
        { url := "http://example/h"
          timeout := 5
          method := some "POST" } ∧
    build_request { url := "http://example/h", timeout := 5 } =
      { method := "GET"
        url := "http://example/h"
        body := none
        headers := []
        timeout := 5
        allowRedirects := true } ∧
    build_request
        { url := "http://example/h"
          timeout := 5
          method := some "PUT" } =
      { method := "GET"
        url := "http://example/h"
        body := none
        headers := []
        timeout := 5
        allowRedirects := true } :=
  ⟨(c10_method_case_insensitive { url := "http://example/h", timeout := 5 }
      "post" "POST").1 (by decide),
   (c10_method_case_insensitive { url := "http://example/h", timeout := 5 }
      "x" "x").2.1 rfl,
   (c10_method_case_insensitive
      { url := "http://example/h"
        timeout := 5
        method := some "PUT" } "x" "x").2.2 (by decide)⟩

/-- C5: a GET request to `/health` or `/healthz` is always answered 200
with body `OK\n` and content type `text/plain`, probing no downstream
service, whatever the downstream outcomes are; the handler is a pure
function of its arguments, so repeated invocations answer identically. -/
theorem c5_health_endpoint (outcomes : String → ServiceConfig → Outcome)
    (now : Nat) :
    handle_request "GET" "/health" outcomes now =
      (.ok 200 "text/plain" "OK\n", []) ∧
    handle_request "GET" "/healthz" outcomes now =
      (.ok 200 "text/plain" "OK\n", []) :=
  ⟨rfl, rfl⟩

/-- Concatenation of a list of strings (each metric line already carrying
its terminating newline), used to state the exact shape of the formatter
output. -/
def concatLines (l : List String) : String :=
  l.foldr (fun a b => a ++ b) ""

/-- Helper: `pyJoin` on a list with a nonempty tail peels off the head. -/
theorem pyJoin_cons (sep x : String) (l : List String) (h : l ≠ []) :
    pyJoin sep (x :: l) = x ++ sep ++ pyJoin sep l := by
  cases l with
  | nil => exact absurd rfl h
  | cons y ys => rfl

/-- Helper: joining lines with newlines and appending a final element is
the concatenation of newline-terminated lines followed by that element. -/
theorem pyJoin_append_singleton (l : List String) (last : String) :
    pyJoin "\n" (l ++ [last]) =
      concatLines (l.map (fun a => a ++ "\n")) ++ last := by
  induction l with
  | nil => rfl
  | cons a as ih =>
    rw [List.cons_append, pyJoin_cons _ _ _ (by simp), ih]
    simp [concatLines, String.append_assoc]

/-- C3: the formatter output is exactly, in this order, the HELP line, the
TYPE line, one `up{job="<name>"} <status>` line per registry entry in
registry order with the name inserted verbatim, and the timestamp comment
line — every line newline-terminated, so the output ends with a single
trailing newline and contains no other metric. -/
theorem c3_metrics_exact_format (registry : List (String × ServiceConfig))
    (outcomes : String → ServiceConfig → Outcome) (now : Nat) :
    generate_metrics registry outcomes now =
      "# HELP up Health check status (1 = up, 0 = down)" ++ "\n" ++
      "# TYPE up gauge" ++ "\n" ++
      concatLines (registry.map (fun p =>
        "up\x7bjob=\"" ++ p.1 ++ "\"\x7d " ++
          toString (check_service_health p.1 p.2 (outcomes p.1 p.2)).1 ++
          "\n")) ++
      "# Health checks completed at " ++ toString now ++ "\n" := by
  show pyJoin "\n"
      ([helpLine, typeLine]
        ++ registry.map (fun p =>
            metricLine p.1 (check_service_health p.1 p.2 (outcomes p.1 p.2)).1)
        ++ [timestampLine now]) ++ "\n" = _
  simp only [List.cons_append, List.nil_append]
  rw [pyJoin_cons _ _ _ (by simp), pyJoin_cons _ _ _ (by simp),
    pyJoin_append_singleton]
  simp only [List.map_map, Function.comp_def]
  simp only [helpLine, typeLine, metricLine, timestampLine,
    String.append_assoc]

/-- Splitting a character stream at newlines, accumulator-style; used to
state claims about the lines of the formatter output. -/
def splitLinesAux : List Char → List Char → List (List Char)
  | [], acc => [acc.reverse]
  | c :: cs, acc =>
    if c = '\n' then acc.reverse :: splitLinesAux cs []
    else splitLinesAux cs (c :: acc)

/-- The lines of a string, split at newline characters (a trailing newline
yields a final empty line). -/
def splitLines (s : String) : List String :=
  (splitLinesAux s.data []).map (fun l => String.mk l)

/-- A line of the exact metric shape: it starts with `up{job="`. -/
def isMetricLine (s : String) : Bool :=
  List.isPrefixOf "up\x7bjob=\"".data s.data

/-- Helper: rebuilding a string from its characters is the identity. -/
theorem string_mk_data (s : String) : String.mk s.data = s := rfl

/-- Helper: a decimal digit character is never a newline. -/
theorem digitChar_ne_newline : ∀ m, m < 10 → Nat.digitChar m ≠ '\n' := by
  decide

/-- Helper: base-10 digit rendering never produces a newline character. -/
theorem toDigitsCore_ne_newline : ∀ (fuel n : Nat) (acc : List Char),
    (∀ c ∈ acc, c ≠ '\n') → ∀ c ∈ Nat.toDigitsCore 10 fuel n acc, c ≠ '\n' := by
  intro fuel
  induction fuel with
  | zero => intro n acc hacc c hc; exact hacc c hc
  | succ f ih =>
    intro n acc hacc c hc
    simp only [Nat.toDigitsCore] at hc
    by_cases h0 : n / 10 = 0
    · rw [if_pos h0] at hc
      rcases List.mem_cons.mp hc with h1 | h2
      · exact h1 ▸ digitChar_ne_newline _ (Nat.mod_lt _ (by decide))
      · exact hacc c h2
    · rw [if_neg h0] at hc
      refine ih (n / 10) _ ?_ c hc
      intro d hd
      rcases List.mem_cons.mp hd with h1 | h2
      · exact h1 ▸ digitChar_ne_newline _ (Nat.mod_lt _ (by decide))
      · exact hacc d h2

/-- Helper: the decimal rendering of a natural number contains no
newline. -/
theorem repr_ne_newline (n : Nat) : ('\n' : Char) ∉ (toString n).data := by
  intro h
  have he : (toString n).data = Nat.toDigitsCore 10 (n + 1) n [] := rfl
  rw [he] at h
  exact toDigitsCore_ne_newline (n + 1) n [] (by simp) '\n' h rfl

/-- Helper: a metric line for a newline-free service name contains no
newline. -/
theorem metricLine_no_newline (n : String) (s : Nat)
    (hn : ('\n' : Char) ∉ n.data) :
    ('\n' : Char) ∉ (metricLine n s).data := by
  intro hmem
  simp only [metricLine, String.data_append, List.mem_append] at hmem
  rcases hmem with ((h1 | h2) | h3) | h4
  · exact absurd h1 (by decide)
  · exact hn h2
  · exact absurd h3 (by decide)
  · exact repr_ne_newline s h4

/-- Helper: the timestamp comment line contains no newline. -/
theorem timestampLine_no_newline (now : Nat) :
    ('\n' : Char) ∉ (timestampLine now).data := by
  intro hmem
  simp only [timestampLine, String.data_append, List.mem_append] at hmem
  rcases hmem with h1 | h2
  · exact absurd h1 (by decide)
  · exact repr_ne_newline now h2

/-- Helper: splitting a newline-free chunk followed by a newline peels
off exactly that chunk as one line. -/
theorem splitLinesAux_line (line : List Char) :
    ∀ (rest acc : List Char), ('\n' : Char) ∉ line →
      splitLinesAux (line ++ '\n' :: rest) acc =
        (acc.reverse ++ line) :: splitLinesAux rest [] := by
  induction line with
  | nil =>
    intro rest acc _
    simp [splitLinesAux]
  | cons c cs ih =>
    intro rest acc h
    have hc : c ≠ '\n' := fun hcon => h (hcon ▸ List.mem_cons_self c cs)
    rw [List.cons_append]
    show (if c = '\n' then acc.reverse :: splitLinesAux (cs ++ '\n' :: rest) []
      else splitLinesAux (cs ++ '\n' :: rest) (c :: acc)) = _
    rw [if_neg hc, ih rest (c :: acc) (fun hm => h (List.mem_cons_of_mem c hm))]
    simp

/-- Helper: splitting the newline-join of newline-free lines, with the
final newline appended, recovers the lines followed by one empty line. -/
theorem splitLinesAux_pyJoin : ∀ (ml : List String), ml ≠ [] →
    (∀ s ∈ ml, ('\n' : Char) ∉ s.data) →
    splitLinesAux (pyJoin "\n" ml ++ "\n").data [] =
      ml.map String.data ++ [[]]
  | [], h, _ => absurd rfl h
  | [x], _, hnl => by
    have hx : ('\n' : Char) ∉ x.data := hnl x (by simp)
    show splitLinesAux (x ++ "\n").data [] = [x.data, []]
    rw [String.data_append]
    have hn : ("\n" : String).data = ['\n'] := rfl
    rw [hn, show (['\n'] : List Char) = '\n' :: [] from rfl,
      splitLinesAux_line x.data [] [] hx]
    simp [splitLinesAux]
  | x :: y :: xs, _, hnl => by
    have hx : ('\n' : Char) ∉ x.data := hnl x (by simp)
    have ih := splitLinesAux_pyJoin (y :: xs) (by simp)
      (fun s hs => hnl s (List.mem_cons_of_mem x hs))
    have hn : ("\n" : String).data = ['\n'] := rfl
    rw [String.data_append, hn] at ih
    rw [pyJoin_cons "\n" x (y :: xs) (by simp)]
    simp only [String.data_append, hn, List.append_assoc, List.cons_append,
      List.nil_append]
    rw [splitLinesAux_line x.data _ [] hx, ih]
    simp

/-- Helper: a list is a Boolean prefix of itself followed by anything. -/
theorem isPrefixOf_append_self (l t : List Char) :
    l.isPrefixOf (l ++ t) = true := by
  induction l with
  | nil => simp
  | cons a as ih => simp [List.isPrefixOf_cons₂, ih]

/-- Helper: every metric line is recognized as a metric line. -/
theorem isMetricLine_metricLine (n : String) (s : Nat) :
    isMetricLine (metricLine n s) = true := by
  show List.isPrefixOf "up\x7bjob=\"".data (metricLine n s).data = true
  have hd : (metricLine n s).data =
      "up\x7bjob=\"".data ++
        (n.data ++ ("\"\x7d ".data ++ (toString s).data)) := by
    simp [metricLine, String.data_append, List.append_assoc]
  rw [hd]
  exact isPrefixOf_append_self _ _

/-- Helper: a line starting with a hash character is not a metric line. -/
theorem isMetricLine_hash (tail : List Char) :
    List.isPrefixOf "up\x7bjob=\"".data ('#' :: tail) = false := rfl

/-- Helper: the timestamp comment line is not a metric line. -/
theorem isMetricLine_timestamp (now : Nat) :
    isMetricLine (timestampLine now) = false := by
  show List.isPrefixOf "up\x7bjob=\"".data (timestampLine now).data = false
  have h1 : (timestampLine now).data =
      '#' :: (" Health checks completed at ".data ++ (toString now).data) := by
    simp [timestampLine, String.data_append]
  rw [h1]
  exact isMetricLine_hash _

/-- Helper: the full shape of the split output lines of the formatter,
for any registry whose service names contain no newline: the HELP line,
the TYPE line, the metric lines in registry order, the timestamp line,
and the empty line produced by the trailing newline. -/
theorem splitLines_generate_metrics (registry : List (String × ServiceConfig))
    (outcomes : String → ServiceConfig → Outcome) (now : Nat)
    (h : ∀ p ∈ registry, ('\n' : Char) ∉ p.1.data) :
    splitLines (generate_metrics registry outcomes now) =
      [helpLine, typeLine]
        ++ registry.map (fun p =>
            metricLine p.1 (check_service_health p.1 p.2 (outcomes p.1 p.2)).1)
        ++ [timestampLine now, ""] := by
  have hml : ∀ s ∈ ([helpLine, typeLine]
      ++ registry.map (fun p =>
          metricLine p.1 (check_service_health p.1 p.2 (outcomes p.1 p.2)).1)
      ++ [timestampLine now]), ('\n' : Char) ∉ s.data := by
    intro s hs
    simp only [List.mem_append, List.mem_cons, List.mem_map,
      List.not_mem_nil, or_false] at hs
    rcases hs with ((rfl | rfl) | ⟨p, hp, rfl⟩) | rfl
    · decide
    · decide
    · exact metricLine_no_newline p.1 _ (h p hp)
    · exact timestampLine_no_newline now
  show (splitLinesAux (generate_metrics registry outcomes now).data []).map
      (fun l => String.mk l) = _
  have hgen : (generate_metrics registry outcomes now).data =
      (pyJoin "\n" ([helpLine, typeLine]
        ++ registry.map (fun p =>
            metricLine p.1 (check_service_health p.1 p.2 (outcomes p.1 p.2)).1)
        ++ [timestampLine now]) ++ "\n").data := rfl
  rw [hgen, splitLinesAux_pyJoin _ (by simp) hml]
  simp [string_mk_data, List.map_map, Function.comp_def]

/-- C4: for every registry whose service names are newline-free, the lines
of the formatter output that have the metric shape `up{job="..."}` are
exactly the per-entry metric lines in registry order — so their count
equals the number of registry entries — each carrying a status value that
is strictly 0 or 1; and with the empty registry the output consists of
only the HELP line, the TYPE line, the timestamp comment line and the
final empty line, with zero metric lines. -/
theorem c4_metric_line_count (registry : List (String × ServiceConfig))
    (outcomes : String → ServiceConfig → Outcome) (now : Nat)
    (h : ∀ p ∈ registry, ('\n' : Char) ∉ p.1.data) :
    (splitLines (generate_metrics registry outcomes now)).filter isMetricLine =
      registry.map (fun p =>
        metricLine p.1 (check_service_health p.1 p.2 (outcomes p.1 p.2)).1) ∧
    ((splitLines (generate_metrics registry outcomes now)).filter
        isMetricLine).length = registry.length ∧
    (∀ p ∈ registry,
      (check_service_health p.1 p.2 (outcomes p.1 p.2)).1 = 0 ∨
        (check_service_health p.1 p.2 (outcomes p.1 p.2)).1 = 1) ∧
    splitLines (generate_metrics [] outcomes now) =
      [helpLine, typeLine, timestampLine now, ""] := by
  have hfilter :
      (splitLines (generate_metrics registry outcomes now)).filter
          isMetricLine =
        registry.map (fun p =>
          metricLine p.1 (check_service_health p.1 p.2 (outcomes p.1 p.2)).1) := by
    rw [splitLines_generate_metrics registry outcomes now h]
    have hmap : List.filter isMetricLine
        (registry.map (fun p =>
          metricLine p.1 (check_service_health p.1 p.2 (outcomes p.1 p.2)).1)) =
        registry.map (fun p =>
          metricLine p.1 (check_service_health p.1 p.2 (outcomes p.1 p.2)).1) :=
      List.filter_eq_self.mpr (by
        intro a ha
        rcases List.mem_map.mp ha with ⟨p, _, rfl⟩
        exact isMetricLine_metricLine p.1 _)
    have h1 : isMetricLine helpLine = false := by decide
    have h2 : isMetricLine typeLine = false := by decide
    have h3 : isMetricLine "" = false := rfl
    simp [List.filter_append, List.filter_cons, h1, h2, h3,
      isMetricLine_timestamp, hmap]
  refine ⟨hfilter, ?_, ?_, ?_⟩
  · rw [hfilter, List.length_map]
  · intro p _
    exact check_result_zero_or_one p.1 p.2 (outcomes p.1 p.2)
  · rw [splitLines_generate_metrics [] outcomes now (by simp)]
    rfl

/-- Witness for C4 at the concrete registry `SERVICES` with every probe
receiving a 200 response. -/
theorem c4_metric_line_count_witness :
    ((splitLines (generate_metrics SERVICES
        (fun _ _ => Outcome.response 200) 1735000000)).filter
      isMetricLine).length = SERVICES.length :=
  (c4_metric_line_count SERVICES (fun _ _ => Outcome.response 200)
    1735000000 (by decide)).2.1

/-- Counterexample to C6 as stated: a non-GET request (POST /metrics) is
answered by the base HTTP class with status 501 (Unsupported method), not
404 — though indeed no probe is executed. -/
theorem c6_counterexample_post_is_501 :
    handle_request "POST" "/metrics" (fun _ _ => Outcome.timeout) 0 =
      (HandlerResult.error 501 "Unsupported method (\x27POST\x27)", []) ∧
    (handle_request "POST" "/metrics"
      (fun _ _ => Outcome.timeout) 0).1.statusCode ≠ 404 :=
  ⟨rfl, by decide⟩

/-- C6 (amended): a GET request to any path other than `/metrics`,
`/health` and `/healthz` is answered 404 (Not Found) with no probe
executed; a request with any non-GET method, on any path, is answered by
the base HTTP layer with 501 (Unsupported method), also with no probe
executed. -/
theorem c6_amended_unknown_requests (method path : String)
    (outcomes : String → ServiceConfig → Outcome) (now : Nat) :
    (method = "GET" → path ≠ "/metrics" → path ≠ "/health" →
      path ≠ "/healthz" →
      handle_request method path outcomes now =
        (.error 404 "Not Found", [])) ∧
    (method ≠ "GET" →
      handle_request method path outcomes now =
        (.error 501 ("Unsupported method (\x27" ++ method ++ "\x27)"), [])) := by
  constructor
  · intro hm h1 h2 h3
    subst hm
    simp [handle_request, do_GET, h1, h2, h3]
  · intro hm
    simp [handle_request, hm]

/-- Witness for the amended C6: GET /foo is a 404 and POST /health a 501,
neither probing anything. -/
theorem c6_amended_unknown_requests_witness :
    handle_request "GET" "/foo" (fun _ _ => Outcome.timeout) 0 =
      (.error 404 "Not Found", []) ∧
    handle_request "POST" "/health" (fun _ _ => Outcome.timeout) 0 =
      (.error 501 "Unsupported method (\x27POST\x27)", []) :=
  ⟨(c6_amended_unknown_requests "GET" "/foo" (fun _ _ => Outcome.timeout) 0).1
      rfl (by decide) (by decide) (by decide),
   (c6_amended_unknown_requests "POST" "/health"
      (fun _ _ => Outcome.timeout) 0).2 (by decide)⟩

/-- Counterexample to C7 as stated: building the registry from two entries
sharing the name `a` does not abort — it silently yields a registry whose
single `a` entry holds the last value written; and an entry whose URL is
not parseable as a URL is accepted unchanged (no URL validation exists at
construction). -/
theorem c7_counterexample_duplicate_names_accepted :
    mkDict [("a", { url := "http://x", timeout := 1 }),
      ("a", { url := "http://y", timeout := 2 })] =
      [("a", { url := "http://y", timeout := 2 })] ∧
    mkDict [("bad", { url := ":::not-a-url", timeout := 1 })] =
      [("bad", { url := ":::not-a-url", timeout := 1 })] :=
  ⟨rfl, rfl⟩

/-- Helper: inserting a fresh key into a dict appends it at the end. -/
theorem dictInsert_not_mem (d : List (String × ServiceConfig)) (k : String)
    (v : ServiceConfig) (h : ∀ p ∈ d, p.1 ≠ k) :
    dictInsert d k v = d ++ [(k, v)] := by
  induction d with
  | nil => rfl
  | cons q rest ih =>
    have hq : q.1 ≠ k := h q (by simp)
    cases q with
    | mk k' v' =>
      simp only [dictInsert, if_neg hq]
      rw [ih (fun p hp => h p (List.mem_cons_of_mem _ hp))]
      rfl

/-- Helper: folding dict insertion over entries with names disjoint from
the accumulator and pairwise distinct appends them in order. -/
theorem mkDict_foldl_pairwise :
    ∀ (l acc : List (String × ServiceConfig)),
      (∀ p ∈ l, ∀ q ∈ acc, q.1 ≠ p.1) →
      l.Pairwise (fun a b => a.1 ≠ b.1) →
      List.foldl (fun d p => dictInsert d p.1 p.2) acc l = acc ++ l := by
  intro l
  induction l with
  | nil => intro acc _ _; simp
  | cons x xs ih =>
    intro acc hdisj hpw
    rcases List.pairwise_cons.mp hpw with ⟨hx, hxs⟩
    simp only [List.foldl_cons]
    rw [dictInsert_not_mem acc x.1 x.2 (fun q hq => hdisj x (by simp) q hq)]
    rw [ih (acc ++ [x]) ?_ hxs]
    · simp
    · intro p hp q hq
      rcases List.mem_append.mp hq with hq1 | hq2
      · exact hdisj p (List.mem_cons_of_mem x hp) q hq1
      · rw [List.mem_singleton.mp hq2]
        exact hx p hp
  
/-- C7 (amended): registry construction never fails — a dict literal with
duplicate names silently keeps the last value written for that name, and
no URL validation is performed (`urlparse` is never called) — and for
entries with pairwise distinct names, construction reproduces the entry
list verbatim: a read-only, insertion-order-preserving enumeration of the
configurations as written. -/
theorem c7_amended_registry_construction
    (l : List (String × ServiceConfig))
    (h : l.Pairwise (fun a b => a.1 ≠ b.1)) :
    mkDict l = l := by
  have hk := mkDict_foldl_pairwise l []
    (fun p _ q hq => absurd hq (List.not_mem_nil q)) h
  simpa [mkDict] using hk

/-- Witness for the amended C7 at a concrete two-entry registry with
distinct names. -/
theorem c7_amended_registry_construction_witness :
    mkDict [("a", { url := "http://x", timeout := 1 }),
      ("b", { url := "http://y", timeout := 2 })] =
      [("a", { url := "http://x", timeout := 1 }),
        ("b", { url := "http://y", timeout := 2 })] :=
  c7_amended_registry_construction _ (by decide)
